import Mathlib

/-!
Shallow embedding of `src/mock-nudge-server.js` (ai-nudge-server).

JavaScript runtime values that flow into the functions under study are
modelled by `JSVal` (JSON primitive values: the bodies are parsed JSON, so
objects/arrays never reach the scalar positions we study, and JSON numbers
are finite decimals, modelled as rationals).  Fields typed as numbers or
strings in the payload are modelled as `Option ℚ` / `Option String`, with
`none` standing for an absent (`undefined`) field.  JavaScript truthiness
and `||` defaulting are modelled explicitly (`jsStrOr`, `jsNumOr`,
`numTruthy`), as are NaN-propagating comparisons (`jsGEq`, `jsGT`).
-/

namespace NudgeServer

/-- A JSON primitive value as seen by the server (request bodies are parsed
JSON; `undef` models an absent field). -/
inductive JSVal where
  | null
  | undef
  | bool (b : Bool)
  | num (q : ℚ)
  | str (s : String)
  deriving DecidableEq, Repr

/-- JS `String.prototype.trim`: drop leading and trailing whitespace. -/
def jsTrim (s : String) : String :=
  ⟨((s.data.dropWhile Char.isWhitespace).reverse.dropWhile Char.isWhitespace).reverse⟩

/-- Digit-run parser: accumulates a decimal value, returning
(value, number of digits consumed, rest). -/
def parseNatAux : List Char → Nat → Nat → Nat × Nat × List Char
  | [], acc, k => (acc, k, [])
  | c :: cs, acc, k =>
    if c.isDigit then parseNatAux cs (acc * 10 + (c.toNat - 48)) (k + 1)
    else (acc, k, c :: cs)

/-- ECMAScript ToNumber on a string, restricted to plain decimal literals
(optional sign, digits, optional fraction); `none` models NaN.  The exotic
forms (hex, exponent, Infinity) never occur in the payloads under study.
The value is assembled with `Rat.divInt` over integer arithmetic. -/
def strToNumber (s : String) : Option ℚ :=
  let cs := (jsTrim s).data
  if cs = [] then some 0 else
  let signed : Int × List Char :=
    match cs with
    | '-' :: rest => (-1, rest)
    | '+' :: rest => (1, rest)
    | _ => (1, cs)
  let (ip, ik, cs2) := parseNatAux signed.2 0 0
  match cs2 with
  | [] => if ik = 0 then none else some (Rat.divInt (signed.1 * ip) 1)
  | '.' :: rest =>
    let (fp, fk, cs3) := parseNatAux rest 0 0
    if cs3 = [] ∧ 0 < ik + fk then
      some (Rat.divInt (signed.1 * (ip * 10 ^ fk + fp)) (10 ^ fk))
    else none
  | _ => none

/-- ECMAScript ToNumber; `none` models NaN. -/
def toNumber : JSVal → Option ℚ
  | .null => some 0
  | .undef => none
  | .bool b => some (if b then 1 else 0)
  | .num q => some q
  | .str s => strToNumber s

/-- JS loose equality with `null` (`x == null`): true exactly for
`null` and `undefined`. -/
def isNullish : JSVal → Bool
  | .null => true
  | .undef => true
  | _ => false

/-- JS relational `v >= c` against a number literal: both sides pass
through ToNumber; any NaN makes the comparison false. -/
def jsValGE (v : JSVal) (c : ℚ) : Bool :=
  match toNumber v with
  | none => false
  | some q => decide (c ≤ q)

/-- Result record of `interpretCCTScore`. -/
structure CCTInfo where
  level : String
  advice : String
  deriving DecidableEq, Repr

/-- Source `interpretCCTScore` (mock-nudge-server.js lines 62-67).  The literals
`0.8` and `0.5` are written `Rat.divInt` to stay kernel-computable. -/
def interpretCCTScore (cctScore : JSVal) : CCTInfo :=
  if isNullish cctScore then ⟨"unknown", "standard risk assessment"⟩
  else if jsValGE cctScore (Rat.divInt 4 5) then ⟨"high", "conservative approach recommended"⟩
  else if jsValGE cctScore (Rat.divInt 1 2) then ⟨"medium", "balanced risk management"⟩
  else ⟨"low", "careful position sizing advised"⟩

/-- JS `x || d` for a string-or-absent value: `""` and `undefined` are falsy. -/
def jsStrOr (v : Option String) (d : String) : String :=
  match v with
  | none => d
  | some s => if s = "" then d else s

/-- JS `x || d` for a number-or-absent value: `0` and `undefined` are falsy. -/
def jsNumOr (v : Option ℚ) (d : ℚ) : ℚ :=
  match v with
  | none => d
  | some q => if q = 0 then d else q

/-- JS truthiness of a number-or-absent value. -/
def numTruthy (v : Option ℚ) : Bool :=
  match v with
  | none => false
  | some q => decide (q ≠ 0)

/-- JS truthiness of a string-or-absent value. -/
def strTruthy (v : Option String) : Bool :=
  match v with
  | none => false
  | some s => decide (s ≠ "")

/-- JS `x >= c` for a number-or-absent field (`undefined` compares false). -/
def jsGEq (v : Option ℚ) (c : ℚ) : Bool :=
  match v with
  | none => false
  | some q => decide (c ≤ q)

/-- JS `x > c` for a number-or-absent field (`undefined` compares false). -/
def jsGT (v : Option ℚ) (c : ℚ) : Bool :=
  match v with
  | none => false
  | some q => decide (c < q)

/-- Decimal digits of the fractional part `num/den` (invariant `num < den`),
with fuel; JSON decimal inputs always terminate before the fuel runs out. -/
def fracDigits : Nat → Nat → Nat → String
  | _, _, 0 => ""
  | num, den, fuel + 1 =>
    if num = 0 then ""
    else
      let num' := num * 10
      toString (num' / den) ++ fracDigits (num' % den) den fuel

/-- JS default number-to-string rendering, for the terminating-decimal
rationals that JSON payloads produce. -/
def renderQ (q : ℚ) : String :=
  let sign := if q < 0 then "-" else ""
  let n := q.num.natAbs
  let d := q.den
  let frs := fracDigits (n % d) d 30
  sign ++ toString (n / d) ++ (if frs = "" then "" else "." ++ frs)

/-- Template interpolation of a number-or-absent field: JS renders
`undefined` as the string "undefined". -/
def renderOptQ (v : Option ℚ) : String :=
  match v with
  | none => "undefined"
  | some q => renderQ q

/-- JS `Number.prototype.toFixed(2)`: sign taken first, then the magnitude
rounded to two decimals, ties away from zero.  For `|q| = n/d` the rounded
scaled magnitude `⌊100 * n/d + 1/2⌋` is `(200*n + d) / (2*d)` in `Nat`. -/
def toFixed2 (q : ℚ) : String :=
  let sign := if q < 0 then "-" else ""
  let m : Nat := (200 * q.num.natAbs + q.den) / (2 * q.den)
  let fr := m % 100
  sign ++ toString (m / 100) ++ "." ++ (if fr < 10 then "0" ++ toString fr else toString fr)

/-- JS number subtraction on the embedded rationals, written out over
numerator/denominator so that it is kernel-computable; `ratSub_eq` below
identifies it with `Sub.sub` on `ℚ`. -/
def ratSub (a b : ℚ) : ℚ :=
  mkRat (a.num * b.den - b.num * a.den) (a.den * b.den)

/-- Whether `pre` is a prefix of `l`. -/
def leadsWith : List Char → List Char → Bool
  | [], _ => true
  | _ :: _, [] => false
  | a :: as, b :: bs => a = b && leadsWith as bs

/-- Whether `needle` occurs as a contiguous run inside `hay`. -/
def occursIn (needle : List Char) (hay : List Char) : Bool :=
  if leadsWith needle hay then true
  else
    match hay with
    | [] => false
    | _ :: t => occursIn needle t

/-- JS `String.prototype.includes`. -/
def strContains (hay needle : String) : Bool :=
  occursIn needle.data hay.data

/-- The `exec` block of the request body (TradeIntent). -/
structure ExecInfo where
  side : Option String
  qty : Option ℚ
  ordType : Option String
  ordPx : Option JSVal
  deriving DecidableEq

/-- The `profile.demographics` block (only the field the embedded code reads). -/
structure Demographics where
  trading_experience : Option String
  deriving DecidableEq

/-- The `profile.psychological_traits` block. -/
structure PsychTraits where
  pre_mood : Option String
  pre_decision_fatigue : Option String
  deriving DecidableEq

/-- The `profile` block (fields read by the fallback composer; `cct_score` is
kept as a raw JS value because `interpretCCTScore` branches on its
nullishness and numeric coercion). -/
structure Profile where
  cct_score : JSVal
  cct_hot_cold_diff : Option ℚ
  demographics : Option Demographics
  psychological_traits : Option PsychTraits
  deriving DecidableEq

/-- The `portfolio` block (PortfolioState). -/
structure Portfolio where
  balance : Option ℚ
  posQty : Option ℚ
  posPx : Option ℚ
  unrealizedPL : Option ℚ
  realizedPL : Option ℚ
  maxDrawdown : Option ℚ
  maxDrawdownPct : Option ℚ
  totalReturn : Option ℚ
  tradeCount : Option ℚ
  currentDrawdown : Option ℚ
  currentDrawdownPct : Option ℚ
  deriving DecidableEq

/-- The `scenario` block of the request body (ScenarioMeta). -/
structure ScenarioMeta where
  name : Option String
  session_tag : Option String
  news_head : Option String
  bias_focus : Option String
  timer_sec : Option ℚ
  deriving DecidableEq

/-- The `trading_context` block (TradingHistoryContext). -/
structure TradingContext where
  scenario_start_balance : Option ℚ
  scenario_start_position : Option ℚ
  scenario_start_price : Option ℚ
  previous_trades_count : Option ℚ
  previous_realized_pl : Option ℚ
  deriving DecidableEq

/-- The parsed request body (the `scenario` argument of the two generator
functions).  The body's own `scenario` field is named `scenarioInfo`,
matching the destructuring rename in the source. -/
structure Scenario where
  exec : Option ExecInfo
  sym : Option String
  last : Option ℚ
  bid : Option ℚ
  ask : Option ℚ
  fair_value : Option ℚ
  anchor_target : Option ℚ
  sentiment_pct : Option ℚ
  hot_condition : JSVal
  profile : Option Profile
  portfolio : Option Portfolio
  scenarioInfo : Option ScenarioMeta
  trading_context : Option TradingContext
  deriving DecidableEq

/-- Source expression `hot_condition === '1' || hot_condition === true` (lines 97 and 319;
the expression is textually identical in the personalized and generic
context builders). -/
def isHotCondition (v : JSVal) : Bool :=
  v = JSVal.str "1" || v = JSVal.bool true

/-- Source expression `!!(portfolio || scenarioInfo || trading_context)` (lines 76, 263, 442, 477). -/
def isEnhancedPayload (s : Scenario) : Bool :=
  s.portfolio.isSome || s.scenarioInfo.isSome || s.trading_context.isSome

/-- Source access `scenario.profile?.cct_score` (absent profile gives `undefined`). -/
def cctScoreOf (s : Scenario) : JSVal :=
  match s.profile with
  | none => .undef
  | some p => p.cct_score

/-- JS `Array.prototype.join(' ')` on the kept clauses. -/
def joinSp : List String → String
  | [] => ""
  | [c] => c
  | c :: cs => c ++ " " ++ joinSp cs

/-- JS `.filter(Boolean)`: drop `null` entries and empty strings. -/
def keptClauses (cs : List (Option String)) : List String :=
  (cs.reduceOption).filter (fun c => !c.isEmpty)

/-- Clause 1 of both fallback composers (lines 266 and 396):
`You are placing ${qty} ${side} on ${sym}.` with the `||` defaults. -/
def placingClause (s : Scenario) : String :=
  "You are placing " ++ renderQ (jsNumOr (s.exec.bind (·.qty)) 0) ++ " "
    ++ jsStrOr (s.exec.bind (·.side)) "Buy" ++ " on " ++ jsStrOr s.sym "TICKER" ++ "."

/-- Clause 2 of both fallback composers (lines 267 and 397):
`fv && last ? "Entry vs. fair value: ${(last - fv).toFixed(2)}." : null`. -/
def fairValueClause (s : Scenario) : Option String :=
  if numTruthy s.fair_value && numTruthy s.last then
    some ("Entry vs. fair value: "
      ++ toFixed2 (ratSub (s.last.getD 0) (s.fair_value.getD 0)) ++ ".")
  else none

/-- High-sentiment clause of both fallback composers (lines 269 and 398).
The source writes the clause in single quotes, so the `$\x7b...\x7d`
template is NOT interpolated: the clause is this literal constant. -/
def sentimentClauseText : String :=
  "High institutional activity ($\x7bscenario.sentiment_pct\x7d%) creates strong market momentum."

/-- Source guard `scenario.sentiment_pct >= 70 ? sentimentClauseText : null`. -/
def sentimentClause (s : Scenario) : Option String :=
  if jsGEq s.sentiment_pct 70 then some sentimentClauseText else none

/-- Hot-condition clause of both fallback composers (lines 270 and 399):
guarded by strict equality with the string "1" only. -/
def hotClause (s : Scenario) : Option String :=
  if s.hot_condition = JSVal.str "1" then
    some "Market volatility requires careful execution timing."
  else none

/-- Risk-assessment clause (line 268). -/
def riskClause (s : Scenario) : String :=
  let cctInfo := interpretCCTScore (cctScoreOf s)
  "Risk assessment (" ++ cctInfo.level ++ " risk tolerance): " ++ cctInfo.advice ++ "."

/-- Trading-experience clause (line 272). -/
def experienceClause (s : Scenario) : Option String :=
  let exp := (s.profile.bind (·.demographics)).bind (·.trading_experience)
  if strTruthy exp then
    let e := exp.getD ""
    some ("Your " ++ e ++ " experience suggests "
      ++ (if strContains e "None" || strContains e "Less than" then "caution"
          else "consideration")
      ++ " of all market factors.")
  else none

/-- Mood clause (line 273). -/
def moodClause (s : Scenario) : Option String :=
  let m := (s.profile.bind (·.psychological_traits)).bind (·.pre_mood)
  if strTruthy m then
    some ("Your current mood (" ++ m.getD "" ++ ") may influence market assessment.")
  else none

/-- Decision-fatigue clause (line 274). -/
def fatigueClause (s : Scenario) : Option String :=
  let f := (s.profile.bind (·.psychological_traits)).bind (·.pre_decision_fatigue)
  if strTruthy f then
    some ("Decision fatigue level (" ++ f.getD "" ++ ") may affect market analysis.")
  else none

/-- Portfolio summary clause (line 276). -/
def portfolioClause (s : Scenario) : Option String :=
  match s.portfolio with
  | none => none
  | some p =>
    if isEnhancedPayload s then
      some ("Portfolio: $" ++ renderOptQ p.balance ++ " balance, "
        ++ renderOptQ p.posQty ++ " position, "
        ++ (if jsGEq p.unrealizedPL 0 then "+" else "")
        ++ "$" ++ renderOptQ p.unrealizedPL ++ " unrealized P&L.")
    else none

/-- Drawdown warning clause (line 277): the guard reads
`scenario.portfolio?.maxDrawdownPct > 2` while the text renders
`currentDrawdownPct`. -/
def drawdownClause (s : Scenario) : Option String :=
  if isEnhancedPayload s && jsGT (s.portfolio.bind (·.maxDrawdownPct)) 2 then
    some ("You\x27re currently "
      ++ renderOptQ (s.portfolio.bind (·.currentDrawdownPct))
      ++ "% below peak. Consider risk management strategy.")
  else none

/-- Hot/cold risk-pattern clause (line 278). -/
def riskPatternClause (s : Scenario) : Option String :=
  let diff := s.profile.bind (·.cct_hot_cold_diff)
  if isEnhancedPayload s && numTruthy diff then
    some ("Your risk pattern shows "
      ++ (if jsGT diff 0 then "more caution under market pressure"
          else "consistent risk-taking across market conditions")
      ++ ".")
  else none

/-- The clause array of the personalized fallback (lines 265-279), in
source order. -/
def personalizedClauses (s : Scenario) : List (Option String) :=
  [ some (placingClause s),
    fairValueClause s,
    some (riskClause s),
    sentimentClause s,
    hotClause s,
    experienceClause s,
    moodClause s,
    fatigueClause s,
    portfolioClause s,
    drawdownClause s,
    riskPatternClause s ]

/-- Source `fallbackAdvice` of `generatePersonalizedNudge` (lines 265-279). -/
def fallbackAdvice (s : Scenario) : String :=
  joinSp (keptClauses (personalizedClauses s))

/-- The clause array of the generic fallback (lines 395-400), in source
order. -/
def genericClauses (s : Scenario) : List (Option String) :=
  [ some (placingClause s),
    fairValueClause s,
    sentimentClause s,
    hotClause s ]

/-- Source `fallbackAdvice` of `generateGenericNudge` (lines 395-400). -/
def genericFallbackAdvice (s : Scenario) : String :=
  joinSp (keptClauses (genericClauses s))

/-- A chat message of the provider response (`message.content` may be
absent). -/
structure ChatMsg where
  content : Option String
  deriving DecidableEq

/-- One completion choice (`choices[i].message` may be absent). -/
structure Choice where
  message : Option ChatMsg
  deriving DecidableEq

/-- Usage block of the provider response. -/
structure Usage where
  total_tokens : Option ℚ
  deriving DecidableEq

/-- The provider response object returned by
`openai.chat.completions.create`. -/
structure Completion where
  choices : List Choice
  usage : Option Usage
  deriving DecidableEq

/-- Outcome of the Generation Gateway call: a completion, or a thrown
error carrying `error.message`. -/
def GatewayOutcome := Except String Completion

/-- The `meta` bag of a NudgeResult; `none` models a key that is absent
from the emitted object. -/
structure NudgeMeta where
  received_at : Nat
  cct_score : Option JSVal
  cct_level : Option String
  sentiment_pct : Option ℚ
  is_hot : Option Bool
  tokens_used : Option ℚ
  error : Option String
  fallback : Option Bool
  enhanced_payload : Option Bool
  nudge_type : Option String
  deriving DecidableEq

/-- The response value built by both generator functions. -/
structure NudgeResult where
  model : String
  suggestion_html : String
  suggestion_text : String
  meta : NudgeMeta
  deriving DecidableEq

/-- Source expression `completion.choices[0]?.message?.content?.trim() || default`
(lines 237 and 370). -/
def extractNudgeText (completion : Completion) : String :=
  jsStrOr (((completion.choices.head?.bind Choice.message).bind ChatMsg.content).map jsTrim)
    "Consider all factors carefully before making your trading decision."

/-- Source expression `completion.usage?.total_tokens || 0`. -/
def tokensUsed (completion : Completion) : ℚ :=
  jsNumOr ((completion.usage).bind Usage.total_tokens) 0

/-- Source `generatePersonalizedNudge` (lines 70-293), with the Generation
Gateway call abstracted into the `outcome` argument and `Date.now()`
into `now`.  The `try` block succeeds exactly when the gateway call
does (nothing after it can throw); a thrown gateway error lands in the
`catch` block, which builds the rule-based fallback result. -/
def generatePersonalizedNudge (s : Scenario) (outcome : GatewayOutcome)
    (now : Nat) : NudgeResult :=
  match outcome with
  | Except.ok completion =>
    let nudgeText := extractNudgeText completion
    { model := "gpt-4o-mini",
      suggestion_html := "<div><b>AI Trade Feedback:</b> " ++ nudgeText ++ "</div>",
      suggestion_text := nudgeText,
      meta := { received_at := now,
                cct_score := some (cctScoreOf s),
                cct_level := some (interpretCCTScore (cctScoreOf s)).level,
                sentiment_pct := s.sentiment_pct,
                is_hot := some (isHotCondition s.hot_condition),
                tokens_used := some (tokensUsed completion),
                error := none, fallback := none,
                enhanced_payload := none, nudge_type := none } }
  | Except.error e =>
    let advice := fallbackAdvice s
    { model := "fallback-rule-based",
      suggestion_html := "<div><b>AI Trade Feedback:</b> " ++ advice ++ "</div>",
      suggestion_text := advice,
      meta := { received_at := now,
                cct_score := none, cct_level := none,
                sentiment_pct := none, is_hot := none, tokens_used := none,
                error := some e, fallback := some true,
                enhanced_payload := some (isEnhancedPayload s),
                nudge_type := none } }

/-- Source `generateGenericNudge` (lines 296-414), under the same abstraction of
the gateway call. -/
def generateGenericNudge (s : Scenario) (outcome : GatewayOutcome)
    (now : Nat) : NudgeResult :=
  match outcome with
  | Except.ok completion =>
    let nudgeText := extractNudgeText completion
    { model := "gpt-4o-mini",
      suggestion_html := "<div><b>AI Trade Feedback:</b> " ++ nudgeText ++ "</div>",
      suggestion_text := nudgeText,
      meta := { received_at := now,
                cct_score := none, cct_level := none,
                sentiment_pct := s.sentiment_pct,
                is_hot := some (isHotCondition s.hot_condition),
                tokens_used := some (tokensUsed completion),
                error := none, fallback := none, enhanced_payload := none,
                nudge_type := some "generic" } }
  | Except.error e =>
    let advice := genericFallbackAdvice s
    { model := "fallback-rule-based",
      suggestion_html := "<div><b>AI Trade Feedback:</b> " ++ advice ++ "</div>",
      suggestion_text := advice,
      meta := { received_at := now,
                cct_score := none, cct_level := none,
                sentiment_pct := none, is_hot := none, tokens_used := none,
                error := some e, fallback := some true,
                enhanced_payload := none,
                nudge_type := some "generic" } }

/-- The `POST /generic-nudge` handler (lines 417-436): the generator is total
given the gateway outcome, so the route always answers status 200 with the
generator result. -/
def handleGenericNudge (body : Scenario) (outcome : GatewayOutcome)
    (now : Nat) : Nat × NudgeResult :=
  (200, generateGenericNudge body outcome now)

/-- The `POST /enhanced-nudge` handler (lines 439-471). -/
def handleEnhancedNudge (body : Scenario) (outcome : GatewayOutcome)
    (now : Nat) : Nat × NudgeResult :=
  (200, generatePersonalizedNudge body outcome now)

/-- The `POST /nudge` legacy handler (lines 474-512). -/
def handleLegacyNudge (body : Scenario) (outcome : GatewayOutcome)
    (now : Nat) : Nat × NudgeResult :=
  (200, generatePersonalizedNudge body outcome now)

/-- Source expression `(ask && bid) ? (ask - bid).toFixed(2) : null` (lines 91 and 313). -/
def marketSpread (s : Scenario) : Option String :=
  if numTruthy s.ask && numTruthy s.bid then
    some (toFixed2 (ratSub (s.ask.getD 0) (s.bid.getD 0)))
  else none

/-- The user prompt built by `generateGenericNudge` (lines 325-352). -/
def genericPrompt (s : Scenario) : String :=
  "You are a professional trading platform advisor providing market analysis and considerations to investors. Generate concise, neutral market observations that present key data without giving direct investment advice.\n\n"
  ++ "CURRENT MARKET CONDITIONS:\n"
  ++ "- Trade: " ++ jsStrOr (s.exec.bind (·.side)) "Buy" ++ " "
    ++ renderQ (jsNumOr (s.exec.bind (·.qty)) 0) ++ " shares of "
    ++ jsStrOr s.sym "TICKER" ++ " ("
    ++ jsStrOr (s.exec.bind (·.ordType)) "Market" ++ " order)\n"
  ++ "- Market: Last=" ++ renderOptQ s.last ++ ", Bid=" ++ renderOptQ s.bid
    ++ ", Ask=" ++ renderOptQ s.ask
    ++ (match marketSpread s with
        | some sp => ", Spread=$" ++ sp
        | none => "") ++ "\n"
  ++ "- Analysis: Fair Value=" ++ renderOptQ s.fair_value
    ++ ", Analyst Target=" ++ renderOptQ s.anchor_target
    ++ ", Institutional Activity=" ++ renderOptQ s.sentiment_pct ++ "%\n"
  ++ "- Market Volatility: "
    ++ (if isHotCondition s.hot_condition then "High volatility conditions"
        else "Standard market conditions") ++ "\n\n"
  ++ "ACADEMICALLY SOUND TRADING GUIDELINES (MARKET REALISM):\n"
  ++ "1. MAXIMUM 80 WORDS - Concise but complete\n"
  ++ "2. Use CONSIDERATION language: \"Consider\", \"Evaluate\", \"Assess\"\n"
  ++ "3. Highlight KEY MARKET DATA: Prices, spreads, percentages, volatility\n"
  ++ "4. Focus on MARKET CONDITIONS and RISK FACTORS\n"
  ++ "5. Present NEUTRAL ANALYSIS - no direct recommendations\n"
  ++ "6. Use PROFESSIONAL trading platform language\n"
  ++ "7. End with THOUGHT-PROVOKING QUESTION or CONSIDERATION\n"
  ++ "8. Avoid financial advice - just market observations\n"
  ++ "9. Use trading symbols: $, %, ↑, ↓, ⚠️ for data emphasis\n"
  ++ "10. Professional, informative, but not directive tone\n\n"
  ++ "AVAILABLE MARKET ANALYSIS CATEGORIES:\n"
  ++ "- Execution Cost: Focus on spread, fees, transaction costs\n"
  ++ "- Fair Value Analysis: Compare entry price to fair value estimates\n"
  ++ "- Market Momentum: Address high institutional buying activity\n"
  ++ "- Volatility Impact: Warn about market volatility effects\n"
  ++ "- Risk Assessment: General risk considerations\n\n"
  ++ "Generate professional trading guidance that addresses the most relevant market factors for this specific situation."

/-- The empty request body `\x7b\x7d`: every field absent. -/
def emptyScenario : Scenario :=
  { exec := none, sym := none, last := none, bid := none, ask := none,
    fair_value := none, anchor_target := none, sentiment_pct := none,
    hot_condition := .undef, profile := none, portfolio := none,
    scenarioInfo := none, trading_context := none }

/-- Concrete portfolio whose current drawdown (5%) exceeds 2 while the
maximum drawdown (1%) does not. -/
def portfolioCurrentHigh : Portfolio :=
  { balance := some 1000, posQty := some 5, posPx := none,
    unrealizedPL := some (-3), realizedPL := none, maxDrawdown := none,
    maxDrawdownPct := some 1, totalReturn := none, tradeCount := none,
    currentDrawdown := none, currentDrawdownPct := some 5 }

/-- Concrete portfolio whose maximum drawdown (5%) exceeds 2 while the
current drawdown (0%) does not. -/
def portfolioMaxHigh : Portfolio :=
  { balance := some 1000, posQty := some 5, posPx := none,
    unrealizedPL := some (-3), realizedPL := none, maxDrawdown := none,
    maxDrawdownPct := some 5, totalReturn := none, tradeCount := none,
    currentDrawdown := none, currentDrawdownPct := some 0 }

/-! ## Helper lemmas -/

/-- The explicit subtraction used in the embedding agrees with `Sub.sub`. -/
theorem ratSub_eq (a b : ℚ) : ratSub a b = a - b := by
  rw [ratSub, Rat.sub_def']

theorem leadsWith_append_self (l t : List Char) : leadsWith l (l ++ t) = true := by
  induction l with
  | nil => rfl
  | cons a as ih => simp [leadsWith, ih]

theorem leadsWith_append_of {n p : List Char} (t : List Char)
    (h : leadsWith n p = true) : leadsWith n (p ++ t) = true := by
  induction n generalizing p with
  | nil => rfl
  | cons a as ih =>
    cases p with
    | nil => simp [leadsWith] at h
    | cons b bs =>
      simp only [leadsWith, Bool.and_eq_true, decide_eq_true_eq] at h
      simp [leadsWith, h.1, ih h.2]

theorem occursIn_of_leadsWith {n h : List Char} (hl : leadsWith n h = true) :
    occursIn n h = true := by
  unfold occursIn
  rw [hl]
  simp

theorem occursIn_cons {n t : List Char} (a : Char)
    (h : occursIn n t = true) : occursIn n (a :: t) = true := by
  unfold occursIn
  split
  · rfl
  · exact h

theorem occursIn_append_left {n t : List Char} (p : List Char)
    (h : occursIn n t = true) : occursIn n (p ++ t) = true := by
  induction p with
  | nil => exact h
  | cons a as ih => exact occursIn_cons a ih

theorem occursIn_append_right {n : List Char} (t : List Char) :
    ∀ {p : List Char}, occursIn n p = true → occursIn n (p ++ t) = true := by
  intro p h
  induction p with
  | nil =>
    unfold occursIn at h
    split at h
    · exact occursIn_of_leadsWith (leadsWith_append_of t (by assumption))
    · exact absurd h (by simp)
  | cons a as ih =>
    unfold occursIn at h
    split at h
    · exact occursIn_of_leadsWith (leadsWith_append_of t (by assumption))
    · exact occursIn_cons a (ih h)

theorem occursIn_joinSp_of_mem {l : List String} {c : String} (hm : c ∈ l)
    {n : List Char} (hn : occursIn n c.data = true) :
    occursIn n (joinSp l).data = true := by
  induction l with
  | nil => cases hm
  | cons x xs ih =>
    cases hm with
    | head =>
      cases xs with
      | nil => exact hn
      | cons y ys =>
        show occursIn n (c ++ " " ++ joinSp (y :: ys)).data = true
        rw [String.data_append, String.data_append]
        exact occursIn_append_right _ (occursIn_append_right _ hn)
    | tail _ hm' =>
      cases xs with
      | nil => cases hm'
      | cons y ys =>
        show occursIn n (x ++ " " ++ joinSp (y :: ys)).data = true
        rw [String.data_append]
        exact occursIn_append_left _ (ih hm')

theorem strContains_joinSp_of_mem {l : List String} {c : String} (hm : c ∈ l)
    {n : String} (hn : strContains c n = true) :
    strContains (joinSp l) n = true :=
  occursIn_joinSp_of_mem hm hn

theorem strContains_self (c : String) : strContains c c = true := by
  have := leadsWith_append_self c.data []
  rw [List.append_nil] at this
  exact occursIn_of_leadsWith this

theorem mem_keptClauses {cs : List (Option String)} {t : String}
    (hm : some t ∈ cs) (ht : t ≠ "") : t ∈ keptClauses cs := by
  rw [keptClauses, List.mem_filter]
  refine ⟨?_, ?_⟩
  · rw [List.reduceOption_mem_iff]
    exact hm
  · simp only [Bool.not_eq_true', ← Bool.not_eq_true, String.isEmpty_iff]
    exact ht

theorem str_append_left_ne_empty {a : String} (b : String) (ha : a ≠ "") :
    (a ++ b) ≠ "" := by
  intro h
  have hd := congrArg String.data h
  rw [String.data_append] at hd
  rcases List.append_eq_nil.mp hd with ⟨h1, -⟩
  exact ha (String.ext h1)

theorem jsStrOr_ne_empty (v : Option String) {d : String} (hd : d ≠ "") :
    jsStrOr v d ≠ "" := by
  cases v with
  | none => exact hd
  | some s =>
    show (if s = "" then d else s) ≠ ""
    split
    · exact hd
    · assumption

theorem joinSp_cons_ne_empty {c : String} (cs : List String) (hc : c ≠ "") :
    joinSp (c :: cs) ≠ "" := by
  cases cs with
  | nil => exact hc
  | cons y ys =>
    show c ++ " " ++ joinSp (y :: ys) ≠ ""
    intro h
    have hd := congrArg String.data h
    rw [String.data_append, String.data_append] at hd
    rcases List.append_eq_nil.mp hd with ⟨hd1, -⟩
    rcases List.append_eq_nil.mp hd1 with ⟨hd2, -⟩
    exact hc (String.ext hd2)

theorem placingClause_ne_empty (s : Scenario) : placingClause s ≠ "" := by
  intro h
  have hd : (placingClause s).data.length = 0 := by rw [h]; rfl
  rw [placingClause] at hd
  repeat rw [String.data_append] at hd
  repeat rw [List.length_append] at hd
  have h16 : ("You are placing ".data).length = 16 := rfl
  rw [h16] at hd
  omega

theorem fallbackAdvice_ne_empty (s : Scenario) : fallbackAdvice s ≠ "" := by
  rw [fallbackAdvice, personalizedClauses, keptClauses]
  rw [List.reduceOption_cons_of_some, List.filter]
  rw [show (!(placingClause s).isEmpty) = true by
    simp only [Bool.not_eq_true', ← Bool.not_eq_true, String.isEmpty_iff]
    exact placingClause_ne_empty s]
  exact joinSp_cons_ne_empty _ (placingClause_ne_empty s)

theorem genericFallbackAdvice_ne_empty (s : Scenario) : genericFallbackAdvice s ≠ "" := by
  rw [genericFallbackAdvice, genericClauses, keptClauses]
  rw [List.reduceOption_cons_of_some, List.filter]
  rw [show (!(placingClause s).isEmpty) = true by
    simp only [Bool.not_eq_true', ← Bool.not_eq_true, String.isEmpty_iff]
    exact placingClause_ne_empty s]
  exact joinSp_cons_ne_empty _ (placingClause_ne_empty s)

theorem extractNudgeText_ne_empty (c : Completion) : extractNudgeText c ≠ "" :=
  jsStrOr_ne_empty _ (by decide)

/-! ## Claims -/

/-- C1, counterexample: the claim says every non-numeric input (not only
null/undefined) yields level "unknown", but `interpretCCTScore` only
checks loose equality with null; the boolean `true` coerces to the number
1 and is classified "high". -/
theorem C1_counterexample :
    interpretCCTScore (JSVal.bool true) = ⟨"high", "conservative approach recommended"⟩
    ∧ (interpretCCTScore (JSVal.bool true)).level ≠ "unknown" := by
  decide

/-- C1, amended: `interpretCCTScore` maps every input to exactly one
classification with its fixed advice string; null/undefined yield
"unknown"; any other input is classified by its numeric coercion with
the half-open boundaries s ≥ 0.8 high, 0.5 ≤ s < 0.8 medium, s < 0.5 low;
a non-null input whose coercion is NaN yields "low" (not "unknown").
The function is total and never fails. -/
theorem C1_interpret_amended (v : JSVal) :
    (isNullish v = true →
      interpretCCTScore v = ⟨"unknown", "standard risk assessment"⟩)
    ∧ (∀ q : ℚ, isNullish v = false → toNumber v = some q →
        ((Rat.divInt 4 5 ≤ q →
            interpretCCTScore v = ⟨"high", "conservative approach recommended"⟩)
          ∧ (Rat.divInt 1 2 ≤ q → q < Rat.divInt 4 5 →
            interpretCCTScore v = ⟨"medium", "balanced risk management"⟩)
          ∧ (q < Rat.divInt 1 2 →
            interpretCCTScore v = ⟨"low", "careful position sizing advised"⟩)))
    ∧ (isNullish v = false → toNumber v = none →
        interpretCCTScore v = ⟨"low", "careful position sizing advised"⟩) := by
  refine ⟨fun hn => ?_,
    fun q hn htn => ⟨fun hq => ?_, fun hq1 hq2 => ?_, fun hq => ?_⟩,
    fun hn htn => ?_⟩
  · simp [interpretCCTScore, hn]
  · simp [interpretCCTScore, hn, jsValGE, htn, hq]
  · simp [interpretCCTScore, hn, jsValGE, htn, hq1, not_le.mpr hq2]
  · have hq' : q < Rat.divInt 4 5 :=
      hq.trans_le (by decide)
    simp [interpretCCTScore, hn, jsValGE, htn, not_le.mpr hq, not_le.mpr hq']
  · simp [interpretCCTScore, hn, jsValGE, htn]

/-- C1, witness: a concrete numeric score 0.9 classifies "high". -/
theorem C1_witness :
    interpretCCTScore (JSVal.num (Rat.divInt 9 10))
      = ⟨"high", "conservative approach recommended"⟩ :=
  ((C1_interpret_amended (JSVal.num (Rat.divInt 9 10))).2.1 (Rat.divInt 9 10)
    (by decide) (by decide)).1 (by decide)

/-- C2: for every request payload and every gateway outcome, the
NudgeResult of both generators has a non-empty `suggestion_text`; the
fallback always contains the first clause, and on the success path an
empty completion is replaced by the generic constant sentence. -/
theorem C2_suggestion_text_nonempty (s : Scenario) (o : GatewayOutcome) (now : Nat) :
    (generatePersonalizedNudge s o now).suggestion_text ≠ ""
    ∧ (generateGenericNudge s o now).suggestion_text ≠ "" := by
  match o with
  | Except.ok c => exact ⟨extractNudgeText_ne_empty c, extractNudgeText_ne_empty c⟩
  | Except.error e => exact ⟨fallbackAdvice_ne_empty s, genericFallbackAdvice_ne_empty s⟩

/-- C3: whenever the Generation Gateway call throws, both generators
return the Fallback Composer result with `model = "fallback-rule-based"`
and `meta.fallback = true`, and every handler still answers HTTP 200. -/
theorem C3_gateway_failure_is_fallback_200 (s : Scenario) (e : String) (now : Nat) :
    (generatePersonalizedNudge s (Except.error e) now).model = "fallback-rule-based"
    ∧ (generatePersonalizedNudge s (Except.error e) now).meta.fallback = some true
    ∧ (generatePersonalizedNudge s (Except.error e) now).suggestion_text = fallbackAdvice s
    ∧ (generateGenericNudge s (Except.error e) now).model = "fallback-rule-based"
    ∧ (generateGenericNudge s (Except.error e) now).meta.fallback = some true
    ∧ (generateGenericNudge s (Except.error e) now).suggestion_text = genericFallbackAdvice s
    ∧ (handleEnhancedNudge s (Except.error e) now).1 = 200
    ∧ (handleLegacyNudge s (Except.error e) now).1 = 200
    ∧ (handleGenericNudge s (Except.error e) now).1 = 200 :=
  ⟨rfl, rfl, rfl, rfl, rfl, rfl, rfl, rfl, rfl⟩

/-- C4, counterexample: on a successful gateway call whose completion
text is empty, the response is NOT the rule-based Fallback Composer
result — the model stays "gpt-4o-mini", no fallback flag is set, and the
text is the constant default sentence rather than `fallbackAdvice`. -/
theorem C4_counterexample :
    (generatePersonalizedNudge emptyScenario (Except.ok ⟨[⟨some ⟨some ""⟩⟩], none⟩) 0).model
        = "gpt-4o-mini"
    ∧ (generatePersonalizedNudge emptyScenario (Except.ok ⟨[⟨some ⟨some ""⟩⟩], none⟩) 0).model
        ≠ "fallback-rule-based"
    ∧ (generatePersonalizedNudge emptyScenario (Except.ok ⟨[⟨some ⟨some ""⟩⟩], none⟩) 0).meta.fallback
        = none
    ∧ (generatePersonalizedNudge emptyScenario (Except.ok ⟨[⟨some ⟨some ""⟩⟩], none⟩) 0).suggestion_text
        ≠ fallbackAdvice emptyScenario := by
  decide

/-- C4, amended: when the external call succeeds but the completion text
is absent or trims to the empty string, both generators substitute the
generic constant sentence on the SUCCESS path: the model stays
"gpt-4o-mini" and no fallback flag is set; the rule-based Fallback
Composer runs only when the gateway call throws. -/
theorem C4_empty_completion_amended (s : Scenario) (c : Completion) (now : Nat)
    (h : ((c.choices.head?.bind Choice.message).bind ChatMsg.content).map jsTrim = none
       ∨ ((c.choices.head?.bind Choice.message).bind ChatMsg.content).map jsTrim = some "") :
    (generatePersonalizedNudge s (Except.ok c) now).suggestion_text
        = "Consider all factors carefully before making your trading decision."
    ∧ (generatePersonalizedNudge s (Except.ok c) now).model = "gpt-4o-mini"
    ∧ (generatePersonalizedNudge s (Except.ok c) now).meta.fallback = none
    ∧ (generateGenericNudge s (Except.ok c) now).suggestion_text
        = "Consider all factors carefully before making your trading decision."
    ∧ (generateGenericNudge s (Except.ok c) now).model = "gpt-4o-mini"
    ∧ (generateGenericNudge s (Except.ok c) now).meta.fallback = none := by
  have ht : extractNudgeText c
      = "Consider all factors carefully before making your trading decision." := by
    rw [extractNudgeText]
    rcases h with h | h <;> rw [h] <;> rfl
  exact ⟨ht, rfl, rfl, ht, rfl, rfl⟩

/-- C4, witness: a concrete empty completion yields the constant default
sentence on the success path. -/
theorem C4_witness :
    (generatePersonalizedNudge emptyScenario (Except.ok ⟨[⟨some ⟨some ""⟩⟩], none⟩) 0).suggestion_text
      = "Consider all factors carefully before making your trading decision." :=
  (C4_empty_completion_amended emptyScenario ⟨[⟨some ⟨some ""⟩⟩], none⟩ 0
    (Or.inr (by decide))).1

/-- C5: the hot-condition coercion maps exactly the string "1" and the
boolean true to hot and everything else to not hot, and the same
`isHotCondition` value is echoed as `meta.is_hot` by both the
personalized and the generic composer on the success path. -/
theorem C5_hot_condition_coercion (v : JSVal) :
    (isHotCondition v = true ↔ (v = JSVal.str "1" ∨ v = JSVal.bool true))
    ∧ ∀ (s : Scenario) (c : Completion) (now : Nat),
        (generatePersonalizedNudge s (Except.ok c) now).meta.is_hot
            = some (isHotCondition s.hot_condition)
        ∧ (generateGenericNudge s (Except.ok c) now).meta.is_hot
            = some (isHotCondition s.hot_condition) := by
  refine ⟨?_, fun s c now => ⟨rfl, rfl⟩⟩
  simp [isHotCondition]

/-- C6, counterexample: the boolean `true` is hot under the coercion of
§3, yet both fallback composers omit the time-pressure/volatility clause,
because the clause guard is strict equality with the string "1" only. -/
theorem C6_counterexample :
    isHotCondition (JSVal.bool true) = true
    ∧ strContains (fallbackAdvice { emptyScenario with hot_condition := JSVal.bool true })
        "Market volatility requires careful execution timing." = false
    ∧ strContains (genericFallbackAdvice { emptyScenario with hot_condition := JSVal.bool true })
        "Market volatility requires careful execution timing." = false := by
  decide

/-- C6, amended: in both fallback composers the time-pressure/volatility
clause is included exactly when `hot_condition` is the string "1"; the
boolean `true` counts as hot for `isHotCondition` but does not trigger
the fallback clause. -/
theorem C6_hot_clause_amended (s : Scenario) :
    (hotClause s = some "Market volatility requires careful execution timing."
        ↔ s.hot_condition = JSVal.str "1")
    ∧ (s.hot_condition = JSVal.str "1" →
        strContains (fallbackAdvice s)
            "Market volatility requires careful execution timing." = true
        ∧ strContains (genericFallbackAdvice s)
            "Market volatility requires careful execution timing." = true)
    ∧ (s.hot_condition ≠ JSVal.str "1" → hotClause s = none) := by
  refine ⟨?_, fun h1 => ?_, fun h1 => ?_⟩
  · rw [hotClause]
    split
    · simp_all
    · simp_all
  · have hc : hotClause s = some "Market volatility requires careful execution timing." := by
      rw [hotClause, if_pos h1]
    constructor
    · exact strContains_joinSp_of_mem
        (mem_keptClauses (by simp [personalizedClauses, hc]) (by decide))
        (strContains_self _)
    · exact strContains_joinSp_of_mem
        (mem_keptClauses (by simp [genericClauses, hc]) (by decide))
        (strContains_self _)
  · rw [hotClause, if_neg h1]

/-- C6, witness: a concrete payload with `hot_condition = "1"` produces
the volatility clause in both fallback texts. -/
theorem C6_witness :
    strContains (fallbackAdvice { emptyScenario with hot_condition := JSVal.str "1" })
        "Market volatility requires careful execution timing." = true
    ∧ strContains (genericFallbackAdvice { emptyScenario with hot_condition := JSVal.str "1" })
        "Market volatility requires careful execution timing." = true :=
  (C6_hot_clause_amended { emptyScenario with hot_condition := JSVal.str "1" }).2.1 rfl

/-- C7, counterexample: with `fair_value` present but equal to the number
0 (and `last = 100`), both fields are present yet the fair-value clause
is omitted: the guard is JS truthiness (`fv && last`), not presence. -/
theorem C7_counterexample :
    ({ emptyScenario with fair_value := some 0, last := some 100 } : Scenario).fair_value.isSome
        = true
    ∧ ({ emptyScenario with fair_value := some 0, last := some 100 } : Scenario).last.isSome
        = true
    ∧ fairValueClause { emptyScenario with fair_value := some 0, last := some 100 } = none
    ∧ strContains (fallbackAdvice { emptyScenario with fair_value := some 0, last := some 100 })
        "Entry vs. fair value" = false
    ∧ strContains (genericFallbackAdvice { emptyScenario with fair_value := some 0, last := some 100 })
        "Entry vs. fair value" = false := by
  decide

/-- C7, amended: both fallback composers include the clause
"Entry vs. fair value: \x7blast − fair_value, two decimals\x7d." exactly when
the fair value and last price are present AND truthy (non-zero); when
either is absent or zero the clause is omitted; when included, the
rendered delta is `toFixed2 (last - fair_value)`. -/
theorem C7_fair_value_clause_amended (s : Scenario) :
    (∀ fv l : ℚ, s.fair_value = some fv → s.last = some l → fv ≠ 0 → l ≠ 0 →
        fairValueClause s = some ("Entry vs. fair value: " ++ toFixed2 (l - fv) ++ ".")
        ∧ strContains (fallbackAdvice s)
            ("Entry vs. fair value: " ++ toFixed2 (l - fv) ++ ".") = true
        ∧ strContains (genericFallbackAdvice s)
            ("Entry vs. fair value: " ++ toFixed2 (l - fv) ++ ".") = true)
    ∧ ((s.fair_value = none ∨ s.last = none ∨ s.fair_value = some 0 ∨ s.last = some 0) →
        fairValueClause s = none) := by
  constructor
  · intro fv l hfv hl hfv0 hl0
    have hg : (numTruthy s.fair_value && numTruthy s.last) = true := by
      simp [numTruthy, hfv, hl, hfv0, hl0]
    have hc : fairValueClause s
        = some ("Entry vs. fair value: " ++ toFixed2 (l - fv) ++ ".") := by
      rw [fairValueClause, if_pos hg, hfv, hl]
      rw [Option.getD_some, Option.getD_some, ratSub_eq]
    have hne : ("Entry vs. fair value: " ++ toFixed2 (l - fv) ++ ".") ≠ "" := by
      have := str_append_left_ne_empty (b := toFixed2 (l - fv))
        (a := "Entry vs. fair value: ") (by decide)
      exact str_append_left_ne_empty _ this
    refine ⟨hc, ?_, ?_⟩
    · exact strContains_joinSp_of_mem
        (mem_keptClauses (by simp [personalizedClauses, hc]) hne)
        (strContains_self _)
    · exact strContains_joinSp_of_mem
        (mem_keptClauses (by simp [genericClauses, hc]) hne)
        (strContains_self _)
  · intro h
    rcases h with h | h | h | h <;> simp [fairValueClause, numTruthy, h]

/-- C7, witness: with `fair_value = 101` and `last = 100` the clause
appears with the delta rendered as toFixed2 of the real difference. -/
theorem C7_witness :
    strContains (fallbackAdvice { emptyScenario with fair_value := some 101, last := some 100 })
        ("Entry vs. fair value: " ++ toFixed2 ((100 : ℚ) - 101) ++ ".") = true :=
  ((C7_fair_value_clause_amended
      { emptyScenario with fair_value := some 101, last := some 100 }).1
    101 100 rfl rfl (by decide) (by decide)).2.1

/-- C8: the claim (and the spec) say the drawdown warning appears exactly
when the CURRENT drawdown percentage exceeds 2, and the emitted message
itself reads "You are currently X% below peak" with `currentDrawdownPct`;
but the guard in the source tests `maxDrawdownPct > 2`.  At a portfolio
with currentDrawdownPct = 5 and maxDrawdownPct = 1 the warning is
omitted, and with currentDrawdownPct = 0 and maxDrawdownPct = 5 it is
emitted: the code contradicts the message it prints. -/
theorem C8_drawdown_guard_eval :
    strContains (fallbackAdvice { emptyScenario with portfolio := some portfolioCurrentHigh })
      "below peak" = false
    ∧ strContains (fallbackAdvice { emptyScenario with portfolio := some portfolioMaxHigh })
      "below peak" = true := by
  decide

/-- C9: the generic endpoint output is independent of profile, portfolio,
scenario and trading-context fields: two payloads agreeing on the
market/analysis/trade fields produce the same generic prompt and the same
generic NudgeResult (in particular the same fallback suggestion text). -/
theorem C9_generic_independent (s₁ s₂ : Scenario) (o : GatewayOutcome) (now : Nat)
    (hexec : s₁.exec = s₂.exec) (hsym : s₁.sym = s₂.sym)
    (hlast : s₁.last = s₂.last) (hbid : s₁.bid = s₂.bid) (hask : s₁.ask = s₂.ask)
    (hfv : s₁.fair_value = s₂.fair_value) (hat : s₁.anchor_target = s₂.anchor_target)
    (hsp : s₁.sentiment_pct = s₂.sentiment_pct)
    (hhc : s₁.hot_condition = s₂.hot_condition) :
    genericPrompt s₁ = genericPrompt s₂
    ∧ generateGenericNudge s₁ o now = generateGenericNudge s₂ o now := by
  cases s₁
  cases s₂
  dsimp only at hexec hsym hlast hbid hask hfv hat hsp hhc
  subst hexec hsym hlast hbid hask hfv hat hsp hhc
  match o with
  | Except.ok c => exact ⟨rfl, rfl⟩
  | Except.error e => exact ⟨rfl, rfl⟩

/-- C9, witness: adding a profile block to the empty payload leaves the
generic prompt and the generic fallback response unchanged. -/
theorem C9_witness :
    genericPrompt emptyScenario
        = genericPrompt { emptyScenario with profile := some ⟨JSVal.num 1, none, none, none⟩ }
    ∧ generateGenericNudge emptyScenario (Except.error "network error") 0
        = generateGenericNudge
            { emptyScenario with profile := some ⟨JSVal.num 1, none, none, none⟩ }
            (Except.error "network error") 0 :=
  C9_generic_independent _ _ _ _ rfl rfl rfl rfl rfl rfl rfl rfl rfl

/-- C10: in both fallback composers the high-sentiment/herding clause is
a fixed constant string: it contains the literal character sequence
"$\x7bscenario.sentiment_pct\x7d" (the source wrote the template in single
quotes, so it is not interpolated), and the fallback output does not
change when the sentiment value changes among values ≥ 70. -/
theorem C10_sentiment_clause_literal (s : Scenario) (q : ℚ)
    (hq : s.sentiment_pct = some q) (h70 : (70 : ℚ) ≤ q) :
    sentimentClause s = some sentimentClauseText
    ∧ strContains sentimentClauseText "$\x7bscenario.sentiment_pct\x7d" = true
    ∧ strContains (fallbackAdvice s) "$\x7bscenario.sentiment_pct\x7d" = true
    ∧ strContains (genericFallbackAdvice s) "$\x7bscenario.sentiment_pct\x7d" = true
    ∧ ∀ q' : ℚ, (70 : ℚ) ≤ q' →
        fallbackAdvice { s with sentiment_pct := some q' } = fallbackAdvice s
        ∧ genericFallbackAdvice { s with sentiment_pct := some q' }
            = genericFallbackAdvice s := by
  have hg : jsGEq s.sentiment_pct 70 = true := by
    simp [jsGEq, hq, h70]
  have hc : sentimentClause s = some sentimentClauseText := by
    rw [sentimentClause, if_pos hg]
  refine ⟨hc, by decide, ?_, ?_, ?_⟩
  · have hm1 : sentimentClauseText ∈ keptClauses (personalizedClauses s) :=
      mem_keptClauses (by simp [personalizedClauses, hc]) (by decide)
    exact strContains_joinSp_of_mem hm1 (by decide)
  · have hm2 : sentimentClauseText ∈ keptClauses (genericClauses s) :=
      mem_keptClauses (by simp [genericClauses, hc]) (by decide)
    exact strContains_joinSp_of_mem hm2 (by decide)
  · intro q' h70'
    obtain ⟨ex, sy, la, bi, ak, fv, at_, sp, hcnd, pr, po, sc, tc⟩ := s
    dsimp only at hq
    subst hq
    constructor
    · simp [fallbackAdvice, personalizedClauses, placingClause, fairValueClause,
        riskClause, sentimentClause, hotClause, experienceClause, moodClause,
        fatigueClause, portfolioClause, drawdownClause, riskPatternClause,
        isEnhancedPayload, cctScoreOf, jsGEq, decide_eq_true h70, decide_eq_true h70']
    · simp [genericFallbackAdvice, genericClauses, placingClause, fairValueClause,
        sentimentClause, hotClause, jsGEq, decide_eq_true h70, decide_eq_true h70']

/-- C10, witness: a concrete payload with sentiment 80 contains the
un-interpolated template text in its fallback output. -/
theorem C10_witness :
    strContains (fallbackAdvice { emptyScenario with sentiment_pct := some 80 })
        "$\x7bscenario.sentiment_pct\x7d" = true :=
  (C10_sentiment_clause_literal { emptyScenario with sentiment_pct := some 80 } 80
    rfl (by decide)).2.2.1

end NudgeServer
